import Mathlib

set_option maxRecDepth 10000

/-!
Verification development for the NIST compliance RAG explorer repository.

The Python sources are shallowly embedded over `Str := List Nat`, each
element a Unicode code point (`Char.toNat`), so that character-level
operations of the Python code (case mapping, whitespace handling, regex
scans) become Nat arithmetic.  Fallible Python code (unbound locals,
missing imports, IndexError) is embedded in `Except PyErr`.

Embedded source files:
  * src/parsers.py        : normalize_control_id, extract_actionable_steps
  * src/response_generator.py : generate_response and its helpers
  * src/main.py           : save_unknown_query
-/

namespace NistRag

abbrev Str := List Nat

/-- Code points of a Lean string literal; used to write Python string
literals in the embedding. -/
def str (s : String) : Str := s.toList.map Char.toNat

/-- Python regex `\s` / `str.strip` whitespace over ASCII. -/
def pyIsSpace (c : Nat) : Bool :=
  c = 32 || c = 9 || c = 10 || c = 13 || c = 11 || c = 12

/-- Python `[0-9]` / `\d` over ASCII. -/
def isDigitN (c : Nat) : Bool := 48 ≤ c && c ≤ 57

/-- Python `[a-z]` over ASCII. -/
def isLowerN (c : Nat) : Bool := 97 ≤ c && c ≤ 122

/-- Python `[A-Z]` over ASCII. -/
def isUpperN (c : Nat) : Bool := 65 ≤ c && c ≤ 90

/-- Python regex `\w` = `[a-zA-Z0-9_]` over ASCII. -/
def isWordN (c : Nat) : Bool := isDigitN c || isLowerN c || isUpperN c || c = 95

/-- Python `str.upper` on one ASCII character. -/
def pyUpperChar (c : Nat) : Nat := if 97 ≤ c ∧ c ≤ 122 then c - 32 else c

/-- Python `str.lower` on one ASCII character. -/
def pyLowerChar (c : Nat) : Nat := if 65 ≤ c ∧ c ≤ 90 then c + 32 else c

/-- Python `str.upper`. -/
def pyUpper (s : Str) : Str := s.map pyUpperChar

/-- Python `str.lower`. -/
def pyLower (s : Str) : Str := s.map pyLowerChar

/-- Python `str.strip()`: drop leading and trailing whitespace. -/
def pyStrip (l : Str) : Str :=
  ((l.dropWhile pyIsSpace).reverse.dropWhile pyIsSpace).reverse

/-- Python `re.sub(r'\s+', ' ', s)`: every maximal whitespace run becomes a
single space.  The Bool flag records being inside a run already replaced. -/
def collapseAux (inRun : Bool) : Str → Str
  | [] => []
  | c :: cs =>
    if pyIsSpace c then
      if inRun then collapseAux true cs else 32 :: collapseAux true cs
    else c :: collapseAux false cs

/-- Scanner state for the parenthetical substitution regex of
`normalize_control_id`.  `scan` is the normal scan; `grp ds` means an
unclosed `(` was read followed by the digits `ds` (reversed); `low c` means
an unclosed `(` was read followed by the single lowercase letter `c`. -/
inductive PState where
  | scan : PState
  | grp : Str → PState
  | low : Nat → PState

/-- `re.sub(r'\((\d+|[a-z])\)', lambda m: f"({m.group(1).upper()})", s)`
from `normalize_control_id`, as a left-to-right scan.  On a failed match the
characters after the opening `(` are re-scanned, which coincides with
emitting them, since none of them can be `(` except the current one. -/
def parenSubGo (st : PState) : Str → Str
  | [] =>
    match st with
    | .scan => []
    | .grp ds => 40 :: ds.reverse
    | .low c => 40 :: [c]
  | c :: cs =>
    match st with
    | .scan =>
      if c = 40 then parenSubGo (.grp []) cs
      else c :: parenSubGo .scan cs
    | .grp ds =>
      if isDigitN c then parenSubGo (.grp (c :: ds)) cs
      else if c = 41 then
        match ds with
        | [] => 40 :: 41 :: parenSubGo .scan cs
        | _ :: _ => 40 :: (ds.reverse.map pyUpperChar) ++ 41 :: parenSubGo .scan cs
      else if isLowerN c ∧ ds = [] then parenSubGo (.low c) cs
      else if c = 40 then 40 :: ds.reverse ++ parenSubGo (.grp []) cs
      else 40 :: ds.reverse ++ c :: parenSubGo .scan cs
    | .low l =>
      if c = 41 then 40 :: pyUpperChar l :: 41 :: parenSubGo .scan cs
      else if c = 40 then 40 :: l :: parenSubGo (.grp []) cs
      else 40 :: l :: c :: parenSubGo .scan cs

/-- `normalize_control_id` from src/parsers.py: empty guard, collapse
whitespace of the stripped string, uppercase, then the parenthetical
substitution. -/
def normalize_control_id (control_id : Str) : Str :=
  if control_id = [] then []
  else parenSubGo .scan (pyUpper (collapseAux false (pyStrip control_id)))

/-- Python runtime errors raised by the embedded code. -/
inductive PyErr where
  | unboundLocal : String → PyErr
  | nameError : String → PyErr
  | indexError : PyErr
deriving DecidableEq

instance {ε α : Type} [DecidableEq ε] [DecidableEq α] : DecidableEq (Except ε α)
  | .ok a, .ok b =>
    if h : a = b then .isTrue (by rw [h])
    else .isFalse (by intro hh; cases hh; exact h rfl)
  | .ok _, .error _ => .isFalse (by intro h; cases h)
  | .error _, .ok _ => .isFalse (by intro h; cases h)
  | .error e, .error f =>
    if h : e = f then .isTrue (by rw [h])
    else .isFalse (by intro hh; cases hh; exact h rfl)

/-- Python `str.split()` with no argument: maximal whitespace-separated
words, no empty words.  `acc` is the current word reversed. -/
def splitWSAux (acc : Str) : Str → List Str
  | [] => if acc = [] then [] else [acc.reverse]
  | c :: cs =>
    if pyIsSpace c then
      if acc = [] then splitWSAux [] cs else acc.reverse :: splitWSAux [] cs
    else splitWSAux (c :: acc) cs

/-- Python `str.split()`. -/
def splitWS (s : Str) : List Str := splitWSAux [] s

/-- Split point test of
`re.split(r'(?<!\w\.\w.)(?<![A-Z][a-z]\.)(?<=\.|\?)\s', description)`:
`racc` holds the characters before the candidate whitespace separator,
nearest first.  The lookbehinds only inspect non-whitespace characters, so
keeping only the characters since the previous split is faithful. -/
def isSplitPoint (racc : Str) : Bool :=
  (racc.head? = some 46 || racc.head? = some 63) &&
  !(match racc with
    | e1 :: e2 :: e3 :: e4 :: _ => (isWordN e4 && e3 = 46 && isWordN e2) ||
        (isUpperN e3 && isLowerN e2 && e1 = 46)
    | e1 :: e2 :: e3 :: _ => isUpperN e3 && isLowerN e2 && e1 = 46
    | _ => false)

/-- The sentence split of `extract_actionable_steps` (the `re.split` above),
scanning left to right; `racc` is the current piece reversed. -/
def splitSentGo (racc : Str) : Str → List Str
  | [] => [racc.reverse]
  | c :: cs =>
    if pyIsSpace c && isSplitPoint racc then racc.reverse :: splitSentGo [] cs
    else splitSentGo (c :: racc) cs

/-- All sentence pieces of a description. -/
def splitSentences (description : Str) : List Str := splitSentGo [] description

/-- Python `str.rstrip(chars)`: drop trailing characters in `chars`. -/
def rstripSet (s : Str) (chars : Str) : Str :=
  (s.reverse.dropWhile (fun c => c ∈ chars)).reverse

/-- The fixed verb set of `extract_actionable_steps`. -/
def actionVerbs : List Str :=
  [str "verify", str "ensure", str "confirm", str "check", str "review",
   str "validate", str "examine", str "determine", str "identify",
   str "monitor", str "assess", str "test", str "inspect"]

/-- Terminal punctuation test `step.endswith(('.', '?'))`. -/
def endsDotQ (s : Str) : Bool := s.getLast? = some 46 || s.getLast? = some 63

/-- Step cleanup of a qualifying stripped sentence:
`sentence[0].upper() + sentence[1:]`, collapse whitespace, ensure terminal
punctuation. -/
def cleanStep (s : Str) : Str :=
  let step := match s with
    | [] => []
    | c :: cs => pyUpperChar c :: cs
  let step := collapseAux false step
  if endsDotQ step then step else step ++ [46]

/-- Loop body of `extract_actionable_steps`: `some` of the cleaned step when
the sentence qualifies (non-empty after strip, at least 3 words, first word
lower-cased and `.rstrip('.,;')`-ed in the verb set). -/
def qualStep (sentence : Str) : Option Str :=
  let s := pyStrip sentence
  if s = [] then none
  else if (splitWS s).length < 3 then none
  else
    match splitWS s with
    | [] => none
    | w :: _ =>
      if rstripSet (pyLower w) (str ".,;") ∈ actionVerbs then some (cleanStep s)
      else none

/-- `extract_actionable_steps` from src/parsers.py.  The fallback indexes
`first[0]`, which raises IndexError when the first sentence strips to the
empty string (a whitespace-only description). -/
def extract_actionable_steps (description : Str) : Except PyErr (List Str) :=
  if description = [] then .ok []
  else
    let sentences := splitSentences description
    let steps := sentences.filterMap qualStep
    if steps = [] ∧ sentences ≠ [] then
      match sentences with
      | [] => .ok (steps.take 10)
      | first0 :: _ =>
        let first := pyStrip first0
        let first := if first ≠ [] ∧ ¬ endsDotQ first then first ++ [46] else first
        match first with
        | [] => .error .indexError
        | c :: cs => .ok ([pyUpperChar c :: cs].take 10)
    else .ok (steps.take 10)

/-- `save_unknown_query` from src/main.py, on the loaded log state: append
the query unless its exact text is already present. -/
def save_unknown_query (query : Str) (unknown_queries : List Str) : List Str :=
  if query ∈ unknown_queries then unknown_queries else unknown_queries ++ [query]

/-! Embedding of src/response_generator.py.  The spaCy tokenizer `nlp` and
`_wrap`/terminal width (presentation per spec section 9) are external to the
core and appear as parameters `nlpTok`, `wrap` and `termWidth`. -/

def foreCyan : Str := str "\x1b[36m"
def foreYellow : Str := str "\x1b[33m"
def foreRed : Str := str "\x1b[31m"
def foreGreen : Str := str "\x1b[32m"
def foreMagenta : Str := str "\x1b[35m"
def foreWhite : Str := str "\x1b[37m"
def styleReset : Str := str "\x1b[0m"
def styleBright : Str := str "\x1b[1m"

/-- Entries of `available_stigs` built by `load_stig_data`. -/
structure Stig where
  file : Str
  title : Str
  technology : Str
deriving DecidableEq

/-- Entries of `control_details` built in src/main.py from the catalog. -/
structure Ctrl where
  title : Str
  description : Str
  parameters : List Str
deriving DecidableEq

/-- STIG recommendation records built by `load_stig_data`. -/
structure StigRec where
  rule_id : Str
  title : Str
  severity : Str
  fix : Str
deriving DecidableEq

/-- Python substring test `p in t`. -/
def strIn (p : Str) : Str → Bool
  | [] => p.isEmpty
  | c :: cs => p.isPrefixOf (c :: cs) || strIn p cs

/-- Decimal digits of `int(ds)` for an ASCII digit string. -/
def digitsToNat (ds : Str) : Nat := ds.foldl (fun a d => a * 10 + (d - 48)) 0

/-- Decimal rendering of a Nat, as code points (Python f-string `{n}`). -/
def natStr (n : Nat) : Str := str (Nat.repr n)

/-- Cons a character onto the head piece of a split result. -/
def consHead (c : Nat) : List Str → List Str
  | [] => [[c]]
  | l :: ls => (c :: l) :: ls

/-- Python `s.split(ab)` for the two-character separator `a b`. -/
def splitOn2 (a b : Nat) : Str → List Str
  | [] => [[]]
  | [c] => [[c]]
  | c :: d :: cs =>
    if c = a ∧ d = b then [] :: splitOn2 a b cs
    else consHead c (splitOn2 a b (d :: cs))

/-- Remainder after the first occurrence of the two-character separator
`a b`, i.e. `s.split(ab, 1)[1]` when it exists. -/
def splitFirst2 (a b : Nat) : Str → Option Str
  | c :: d :: cs => if c = a ∧ d = b then some cs else splitFirst2 a b (d :: cs)
  | _ => none

/-- Prefix before the first occurrence of the two-character separator
`a b`, i.e. `s.split(ab)[0]`. -/
def beforeSep2 (a b : Nat) : Str → Str
  | c :: d :: cs => if c = a ∧ d = b then [] else c :: beforeSep2 a b (d :: cs)
  | l => l

/-- Split on a single character, keeping empty pieces. -/
def splitOnChar (a : Nat) : Str → List Str
  | [] => [[]]
  | c :: cs => if c = a then [] :: splitOnChar a cs else consHead c (splitOnChar a cs)

/-- Python `str.splitlines()` restricted to newline terminators (the only
line boundary appearing in the embedded data): empty string gives no lines
and a trailing newline does not open a final empty line. -/
def splitLines (s : Str) : List Str :=
  if s = [] then []
  else if s.getLast? = some 10 then (splitOnChar 10 s).dropLast
  else splitOnChar 10 s

/-- Python `sep.join(pieces)`. -/
def pyJoin (sep : Str) : List Str → Str
  | [] => []
  | [l] => l
  | l :: l2 :: ls => l ++ sep ++ pyJoin sep (l2 :: ls)

/-- Python `"\n".join(lines)`. -/
def joinLines (lines : List Str) : Str := pyJoin [10] lines

/-- Python `", ".join(items)`. -/
def joinComma (items : List Str) : Str := pyJoin (str ", ") items

/-- `enumerate(l, i)`. -/
def enumFrom {α : Type} (i : Nat) : List α → List (Nat × α)
  | [] => []
  | x :: xs => (i, x) :: enumFrom (i + 1) xs

/-- `re.search(r"with technology index (\d+)", s)`: value of the first
digit group following the literal marker. -/
def findTechIndexGo : Str → Option Nat
  | [] => none
  | c :: cs =>
    if (str "with technology index ").isPrefixOf (c :: cs) then
      let ds := ((c :: cs).drop 22).takeWhile isDigitN
      if ds = [] then findTechIndexGo cs else some (digitsToNat ds)
    else findTechIndexGo cs

def findTechIndex (s : Str) : Option Nat := findTechIndexGo s

/-- Whether `l` is exactly `" with technology index "` followed by one or
more digits, i.e. a match of `r" with technology index \d+$"` starting
here. -/
def isTechSuffix (l : Str) : Bool :=
  (str " with technology index ").isPrefixOf l &&
  (let ds := l.drop 23
   !ds.isEmpty && ds.all isDigitN)

def stripTechGo : Str → Str
  | [] => []
  | c :: cs => if isTechSuffix (c :: cs) then [] else c :: stripTechGo cs

/-- `re.sub(r" with technology index \d+$", "", query)`. -/
def stripTechSuffix (q : Str) : Str := stripTechGo q

/-- `re.search(r"(cci-\d+)", s)`: text of the first match. -/
def cciSearchGo : Str → Option Str
  | [] => none
  | c :: cs =>
    if (str "cci-").isPrefixOf (c :: cs) then
      let ds := ((c :: cs).drop 4).takeWhile isDigitN
      if ds = [] then cciSearchGo cs else some (str "cci-" ++ ds)
    else cciSearchGo cs

def cciSearch (s : Str) : Option Str := cciSearchGo s

/-- `\s*` : greedy whitespace skip. -/
def wsSkip (l : Str) : Str := l.dropWhile pyIsSpace

/-- Match a literal and return the remainder. -/
def litRest (lit : Str) (l : Str) : Option Str :=
  if lit.isPrefixOf l then some (l.drop lit.length) else none

/-- Group matcher `\w{2}-\d+(?:\s*[a-z])?(?:\([a-z0-9]+\))?` of the reverse
CCI-mapping regex: returns the matched text. -/
def matchRevGroup (l : Str) : Option Str :=
  match l with
  | a :: b :: c :: rest =>
    if isWordN a && isWordN b && c = 45 then
      let ds := rest.takeWhile isDigitN
      if ds = [] then none
      else
        let base := a :: b :: 45 :: ds
        let r1 := rest.drop ds.length
        let sp := r1.takeWhile pyIsSpace
        let r1x := r1.drop sp.length
        let bb :=
          match r1x.head? with
          | some x => if isLowerN x then (base ++ sp ++ [x], r1x.drop 1) else (base, r1)
          | none => (base, r1)
        match bb.2 with
        | 40 :: g0 =>
          let gs := g0.takeWhile (fun x => isLowerN x || isDigitN x)
          if gs ≠ [] ∧ (g0.drop gs.length).head? = some 41 then some (bb.1 ++ 40 :: gs ++ [41])
          else some bb.1
        | _ => some bb.1
    else none
  | _ => none

/-- Attempt of
`(?:list|show)?\s*cci\s*mappings\s*for\s*(\w{2}-\d+(?:\s*[a-z])?(?:\([a-z0-9]+\))?)`
starting at the head of `l`: the optional leading literal backtracks into
the empty alternative. -/
def reverseCore (l : Str) : Option Str := do
  let l1 ← litRest (str "cci") (wsSkip l)
  let l2 ← litRest (str "mappings") (wsSkip l1)
  let l3 ← litRest (str "for") (wsSkip l2)
  matchRevGroup (wsSkip l3)

def reverseTryAt (l : Str) : Option Str :=
  (litRest (str "list") l >>= reverseCore) <|>
  (litRest (str "show") l >>= reverseCore) <|>
  reverseCore l

/-- `re.search` scan of the reverse CCI-mapping pattern: group of the
leftmost match. -/
def reverseSearchGo : Str → Option Str
  | [] => none
  | c :: cs =>
    match reverseTryAt (c :: cs) with
    | some g => some g
    | none => reverseSearchGo cs

/-- Match attempt of `(\w{2}-\d+(?:\([a-z0-9]+\))?)` (IGNORECASE) at the
head of `l`: matched text and remainder. -/
def matchControlIdAt (l : Str) : Option (Str × Str) :=
  match l with
  | a :: b :: c :: rest =>
    if isWordN a && isWordN b && c = 45 then
      let ds := rest.takeWhile isDigitN
      if ds = [] then none
      else
        let base := a :: b :: 45 :: ds
        let r1 := rest.drop ds.length
        match r1 with
        | 40 :: g0 =>
          let gs := g0.takeWhile (fun x => isLowerN x || isDigitN x || isUpperN x)
          if gs ≠ [] ∧ (g0.drop gs.length).head? = some 41 then
            some (base ++ 40 :: gs ++ [41], (g0.drop gs.length).drop 1)
          else some (base, r1)
        | _ => some (base, r1)
    else none
  | _ => none

/-- `re.findall` scan for control ids; the fuel is an upper bound on scan
steps, each of which consumes at least one character. -/
def findCtlGo : Nat → Str → List Str
  | 0, _ => []
  | _ + 1, [] => []
  | fuel + 1, c :: cs =>
    match matchControlIdAt (c :: cs) with
    | some (m, r) => m :: findCtlGo fuel r
    | none => findCtlGo fuel cs

def findControlIds (s : Str) : List Str := findCtlGo s.length s

/-- `doc.split(', ')[1].split(': ')[0]` for catalog-tagged retrieved
documents; IndexError when the document has no `", "`. -/
def catalogDocId (doc : Str) : Except PyErr Str :=
  match (splitOn2 44 32 doc).get? 1 with
  | none => .error .indexError
  | some part => .ok (beforeSep2 58 32 part)

/-- Control-id resolution of lines 214-217: regex matches on the query,
else ids of catalog-tagged retrieved documents. -/
def resolveControlIds (retrieved_docs : List Str) (original_lower : Str) :
    Except PyErr (List Str) :=
  let ms := findControlIds original_lower
  if ms ≠ [] then .ok (ms.map (fun m => normalize_control_id (pyUpper m)))
  else (retrieved_docs.filter (fun d => strIn (str "Catalog") d)).mapM catalogDocId

/-- The `tech_patterns` dict, in source order. -/
def techPatterns : List (Str × List Str) := [
  (str "windows", [str "windows", str "microsoft", str "win", str "ms",
    str "windows 10", str "windows server"]),
  (str "linux", [str "linux", str "ubuntu", str "red hat", str "rhel",
    str "centos", str "suse", str "almalinux", str "redhat"]),
  (str "ios", [str "ios", str "ipad", str "apple", str "macos"]),
  (str "android", [str "android", str "google", str "samsung", str "pixel"]),
  (str "vmware", [str "vmware", str "esxi", str "vsphere"]),
  (str "solaris", [str "solaris", str "sun"]),
  (str "splunk", [str "splunk"]),
  (str "tippingpoint", [str "tippingpoint", str "trend micro"])]

/-- `list(set(xs))`: Python set order is hash-dependent, but the keyword
list is only ever used through membership tests, so first-occurrence
deduplication is a faithful model. -/
def pyDedup (l : List Str) : List Str :=
  l.foldl (fun acc x => if x ∈ acc then acc else acc ++ [x]) []

/-- Technology keyword detection (lines 284-303): per token, the first
pattern family with a pattern contained in the lowered token text. -/
def detectTechKeywords (nlpTok : Str → List Str) (text : Str) : List Str :=
  pyDedup ((nlpTok text).filterMap (fun tok =>
    let t := pyLower tok
    techPatterns.findSome? (fun p =>
      if p.2.any (fun pat => strIn pat t) then some p.1 else none)))

/-- STIG filtering (lines 306-310): keep rule sets whose lowered title
contains a detected keyword; no keywords means no filtering. -/
def filterStigs (available_stigs : List Stig) (tech_keywords : List Str) : List Stig :=
  if tech_keywords = [] then available_stigs
  else available_stigs.filter (fun s =>
    tech_keywords.any (fun kw => strIn kw (pyLower s.title)))

/-- Python `str.capitalize()`: first character uppercased, rest lowered. -/
def pyCapitalize (s : Str) : Str :=
  match s with
  | [] => []
  | c :: cs => pyUpperChar c :: pyLower cs

/-- `severity_colors.get(sev, Fore.WHITE)`. -/
def severityColor (sev : Str) : Str :=
  if sev = str "High" then foreRed
  else if sev = str "Medium" then foreYellow
  else if sev = str "Low" then foreGreen
  else foreWhite

/-- `f"{s:<{w}}"`: right-pad with spaces to width `w`. -/
def padR (s : Str) (w : Nat) : Str := s ++ List.replicate (w - s.length) 32

/-- `'─' * n` and friends. -/
def repChar (n : Nat) (a : Nat) : Str := List.replicate n a

/-- `_parse_stig_fix`: split the fix text into assessment line, fix line
and remaining detail lines by the fixed case-insensitive prefixes. -/
def parseStigFix (fix_text : Str) : Str × Str × Str :=
  let res := (splitLines fix_text).foldl (fun (st : Str × Str × List Str) line =>
    let l := pyStrip line
    if (str "assessment:").isPrefixOf (pyLower l) then (pyStrip (l.drop 11), st.2.1, st.2.2)
    else if (str "fix:").isPrefixOf (pyLower l) then (st.1, pyStrip (l.drop 4), st.2.2)
    else if l ≠ [] then (st.1, st.2.1, st.2.2 ++ [l])
    else st) ([], [], [])
  (res.1, res.2.1, joinLines res.2.2)

/-- `_format_stig_table`: the recommendation table.  `title_lines[0]`
raises IndexError when the wrapped title has no lines. -/
def formatStigTable (wrap : Str → Nat → Str → Str) (recs : List StigRec)
    (term_width : Nat) : Except PyErr Str :=
  if recs = [] then .ok (str "No specific STIG guidance.")
  else
    let rule_w := 22
    let title_w := term_width - 30 - rule_w - 12
    let sev_w := 8
    let header := foreCyan ++ str "│ " ++ padR (str "Rule ID") rule_w ++ str " │ " ++
      padR (str "Title") title_w ++ str " │ " ++ padR (str "Severity") sev_w ++ str " │" ++ styleReset
    let separator := foreCyan ++ str "├" ++ repChar (rule_w + 2) 0x2500 ++ str "┼" ++
      repChar (title_w + 2) 0x2500 ++ str "┼" ++ repChar (sev_w + 2) 0x2500 ++ str "┤" ++ styleReset
    let row := fun (rec : StigRec) =>
      let sev := pyCapitalize rec.severity
      let color := severityColor sev
      let pf := parseStigFix rec.fix
      match splitLines (wrap rec.title title_w []) with
      | [] => Except.error PyErr.indexError
      | t0 :: trest =>
        let l1 := foreCyan ++ str "│ " ++ padR rec.rule_id rule_w ++ str " │ " ++
          padR t0 title_w ++ str " │ " ++ color ++ padR sev sev_w ++ styleReset ++ str " │"
        let extras := trest.map (fun e => foreCyan ++ str "│ " ++ padR [] rule_w ++ str " │ " ++
          padR e title_w ++ str " │ " ++ padR [] sev_w ++ str " │" ++ styleReset)
        let aLines := if pf.1 ≠ [] then
            (splitLines (wrap pf.1 (term_width - 10) (str "│ Assessment: "))).map
              (fun ln => foreMagenta ++ styleBright ++ ln ++ styleReset)
          else []
        let fLines := if pf.2.1 ≠ [] then
            (splitLines (wrap pf.2.1 (term_width - 10) (str "│ Fix: "))).map
              (fun ln => foreGreen ++ styleBright ++ ln ++ styleReset)
          else []
        let dLines := if pf.2.2 ≠ [] then
            (splitLines (wrap pf.2.2 (term_width - 10) (str "│ Details: "))).map
              (fun ln => foreWhite ++ styleBright ++ ln ++ styleReset)
          else []
        Except.ok (l1 :: extras ++ aLines ++ fLines ++ dLines ++ [separator])
    match recs.mapM row with
    | .error e => .error e
    | .ok rowss =>
      let lines := header :: separator :: rowss.flatten
      let lines := if lines ≠ [] ∧ lines.getLast? = some separator then lines.dropLast else lines
      .ok (joinLines lines)

/-- The locals of `generate_response` consumed by the per-control loop. -/
structure GenCtx where
  wrap : Str → Nat → Str → Str
  termWidth : Nat
  control_details : List (Str × Ctrl)
  assessment_procedures : List (Str × List Str)
  retrieved_docs : List Str
  all_stig_recommendations : List (Str × List (Str × List StigRec))
  selected_techs : List Str
  is_assessment : Bool
  is_implement : Bool
  generate_checklist : Bool

/-- `doc.split(': ', 1)[1]`; IndexError when the document has no `": "`. -/
def afterColonSplit (doc : Str) : Except PyErr Str :=
  match splitFirst2 58 32 doc with
  | some rest => .ok rest
  | none => .error .indexError

/-- The per-control loop of `generate_response` (lines 341-392).  The calls
to `extract_actionable_steps` in the module are NameErrors: the name is
neither imported nor defined in src/response_generator.py. -/
def processControls (ctx : GenCtx) : List Str → Except PyErr (List Str)
  | [] => .ok []
  | control_id :: rest =>
    match List.lookup control_id ctx.control_details with
    | none =>
      match processControls ctx rest with
      | .error e => .error e
      | .ok tail => .ok ((foreYellow ++ str "1. " ++ control_id ++ styleReset) ::
          (str "   - Status: Not found in NIST 800-53 Rev 5 catalog.") :: tail)
    | some ctrl =>
      let l1 := foreYellow ++ str "1. " ++ control_id ++ str " - " ++ ctrl.title ++ styleReset
      let purpose := pyLower (ctrl.description.takeWhile (fun c => c ≠ 46))
      let l2 := str "   - Purpose: " ++ ctx.wrap purpose (ctx.termWidth - 10) (str "     ")
      let sect1 : Except PyErr (List Str) :=
        if ctx.is_assessment then
          match List.lookup control_id ctx.assessment_procedures with
          | some procs => .ok ((foreCyan ++ str "   Assessment Steps:" ++ styleReset) ::
              ((enumFrom 1 procs).map (fun p =>
                splitLines (ctx.wrap p.2 (ctx.termWidth - 10)
                  (str "     " ++ natStr p.1 ++ str ". ")))).flatten)
          | none => .error (.nameError "extract_actionable_steps")
        else if ctx.is_implement then
          match (ctx.retrieved_docs.filter (fun d =>
              strIn control_id d && !(strIn (str "Assessment") d))).mapM afterColonSplit with
          | .error e => .error e
          | .ok guidance =>
            if guidance ≠ [] then
              .ok ((foreCyan ++ str "   Implementation Guidance:" ++ styleReset) ::
                ((enumFrom 1 guidance).map (fun p =>
                  splitLines (ctx.wrap p.2 (ctx.termWidth - 10)
                    (str "     " ++ natStr p.1 ++ str ". ")))).flatten)
            else .ok [foreCyan ++ str "   Implementation Guidance:" ++ styleReset,
                      str "     1. Follow the control description to enforce this requirement."]
        else .ok []
      match sect1 with
      | .error e => .error e
      | .ok s1 =>
        let stigSect : Except PyErr (List Str) :=
          if ctx.selected_techs ≠ [] then
            match ctx.selected_techs.mapM (fun tech =>
              let recs := (List.lookup control_id
                ((List.lookup tech ctx.all_stig_recommendations).getD [])).getD []
              if recs ≠ [] then
                match formatStigTable ctx.wrap recs ctx.termWidth with
                | .error e => Except.error e
                | .ok tbl => Except.ok [foreCyan ++ str "   STIG Guidance for " ++ tech ++
                    str ":" ++ styleReset, tbl]
              else Except.ok [foreCyan ++ str "   STIG Guidance for " ++ tech ++ str ":" ++
                  styleReset ++ str " No specific guidance."]) with
            | .error e => .error e
            | .ok ls => .ok ls.flatten
          else .ok []
        match stigSect with
        | .error e => .error e
        | .ok s2 =>
          if ctx.generate_checklist then .error (.nameError "extract_actionable_steps")
          else
            match processControls ctx rest with
            | .error e => .error e
            | .ok tail => .ok (l1 :: l2 :: (s1 ++ s2 ++ tail))

/-- Final response assembly from line 336 on: header, selected-technology
line, per-control sections, and the no-information fallback when nothing
beyond the two header lines was produced. -/
def buildFinal (ctx : GenCtx) (preLines : List Str) (action : Str)
    (control_ids : List Str) : Except PyErr Str :=
  let header := foreCyan ++ str "### " ++ action ++ str " " ++ joinComma control_ids ++ styleReset
  let based := str "Based on NIST 800-53 Rev 5 and STIGs for: " ++
    (if ctx.selected_techs ≠ [] then joinComma ctx.selected_techs else str "N/A") ++ [10]
  match processControls ctx control_ids with
  | .error e => .error e
  | .ok body =>
    let response := preLines ++ header :: based :: body
    let response := if response.length ≤ 2 then
        response ++ [foreRed ++ str "No specific information found for this query." ++ styleReset]
      else response
    .ok (joinLines response)

/-- The candidate list presented in the AwaitingSelection prompt (lines
327-334): header with the true total count, at most five 1-based candidate
lines, and the next-step instruction. -/
def clarLines (filtered : List Stig) : List Str :=
  let top := filtered.take 5
  (foreCyan ++ str "Multiple STIGs available (" ++ natStr filtered.length ++
    str " total). Showing top 5:" ++ styleReset) ::
  ((enumFrom 1 top).map (fun p =>
    natStr p.1 ++ str ". " ++ p.2.technology ++ str " - " ++ p.2.title.take 70 ++ str "...") ++
  [foreYellow ++ str "Next Step:" ++ styleReset ++ str " Enter a number (1-" ++
    natStr top.length ++ str ", or 0 for all) to proceed."])

/-- The AwaitingSelection prompt with its clarification marker. -/
def clarPrompt (filtered : List Stig) : Str :=
  joinLines (clarLines filtered) ++ str "\nCLARIFICATION_NEEDED"

/-- Lines 206-207: the original query with the technology-index marker
stripped, lowered. -/
def originalLower (query : Str) : Str := pyLower (pyStrip (stripTechSuffix query))

/-- Line 210: assessment-intent keyword test. -/
def isAssessmentQuery (original_lower : Str) : Bool :=
  [str "assess", str "audit", str "verify", str "check"].any
    (fun w => strIn w original_lower)

/-- Line 211: implementation-intent keyword test. -/
def isImplementQuery (original_lower : Str) : Bool :=
  [str "implement", str "configure", str "harden", str "setup"].any
    (fun w => strIn w original_lower)

/-- Line 212: the action word of the response header. -/
def actionWord (original_lower : Str) : Str :=
  if isAssessmentQuery original_lower then str "Assessing" else str "Implementing"

/-- The loop context of one `generate_response` call before technology
selection. -/
def mkCtx (wrap : Str → Nat → Str → Str) (termWidth : Nat)
    (control_details : List (Str × Ctrl)) (assessment_procedures : List (Str × List Str))
    (retrieved_docs : List Str)
    (all_stig_recommendations : List (Str × List (Str × List StigRec)))
    (generate_checklist : Bool) (original_lower : Str) : GenCtx :=
  { wrap := wrap, termWidth := termWidth, control_details := control_details,
    assessment_procedures := assessment_procedures, retrieved_docs := retrieved_docs,
    all_stig_recommendations := all_stig_recommendations, selected_techs := [],
    is_assessment := isAssessmentQuery original_lower,
    is_implement := isImplementQuery original_lower,
    generate_checklist := generate_checklist }

/-- `generate_response` from src/response_generator.py.  In the 2-3
candidate auto-select branch the source appends to the local
`selected_techs` before any assignment to it on that path, an
UnboundLocalError; the branch is embedded as that error. -/
def generate_response (nlpTok : Str → List Str) (termWidth : Nat)
    (wrap : Str → Nat → Str → Str) (query : Str) (retrieved_docs : List Str)
    (control_details : List (Str × Ctrl)) (high_baseline_controls : List Str)
    (all_stig_recommendations : List (Str × List (Str × List StigRec)))
    (available_stigs : List Stig) (assessment_procedures : List (Str × List Str))
    (cci_to_nist : List (Str × Str)) (generate_checklist : Bool) : Except PyErr Str :=
  let query_lower := pyLower query
  let original_lower := originalLower query
  let action := actionWord original_lower
  match resolveControlIds retrieved_docs original_lower with
  | .error e => .error e
  | .ok control_ids =>
    let ctx : GenCtx := mkCtx wrap termWidth control_details assessment_procedures
      retrieved_docs all_stig_recommendations generate_checklist original_lower
    match findTechIndex query_lower with
    | some selected_idx =>
      let tech_keywords := detectTechKeywords nlpTok original_lower
      let filtered := filterStigs available_stigs tech_keywords
      if selected_idx = 0 then
        buildFinal { ctx with selected_techs := filtered.map Stig.technology } [] action control_ids
      else
        match filtered.get? (selected_idx - 1) with
        | some s => buildFinal { ctx with selected_techs := [s.technology] } [] action control_ids
        | none => .ok (foreRed ++ str "Invalid technology index: " ++ natStr selected_idx ++ styleReset)
    | none =>
      match cciSearch original_lower with
      | some cci_low =>
        let cci_id := pyUpper cci_low
        let nist_control := (List.lookup cci_id cci_to_nist).getD
          (str "Not mapped to NIST 800-53 Rev 5")
        let normalized_control := normalize_control_id nist_control
        let base := [foreCyan ++ str "CCI Lookup:" ++ styleReset,
                     str "- " ++ cci_id ++ str " maps to NIST " ++ normalized_control]
        let extra := match List.lookup normalized_control control_details with
          | some ctrl => [str "- **Title:** " ++ ctrl.title,
                          str "- **Description:** " ++ ctrl.description]
          | none => []
        .ok (joinLines (base ++ extra))
      | none =>
        match reverseSearchGo original_lower with
        | some rgrp =>
          let control_id := normalize_control_id (pyUpper rgrp)
          let matching := (cci_to_nist.filter
            (fun p => normalize_control_id p.2 == control_id)).map Prod.fst
          let lines := (foreCyan ++ str "CCI Mappings for " ++ control_id ++ str ":" ++ styleReset) ::
            (if matching ≠ [] then [str "- CCIs: " ++ joinComma matching]
             else [str "- No CCI mappings found."])
          .ok (joinLines lines)
        | none =>
          let tech_keywords := detectTechKeywords nlpTok original_lower
          let filtered := filterStigs available_stigs tech_keywords
          match filtered with
          | [] => buildFinal ctx
              [foreYellow ++ str "No STIGs found for this control." ++ styleReset] action control_ids
          | [s] => buildFinal { ctx with selected_techs := [s.technology] } [] action control_ids
          | _ :: _ :: _ =>
            if filtered.length ≤ 3 then .error (.unboundLocal "selected_techs")
            else .ok (clarPrompt filtered)

/-! Concrete fixtures used by witnesses, counterexamples and the closed
code-bug theorems. -/

/-- A concrete `_wrap` instance for closed evaluations (wrapping is
presentation, spec section 9). -/
def wrap0 : Str → Nat → Str → Str := fun t _ _ => t

/-- A loaded STIG whose title matches the `linux` keyword. -/
def mkStig (i : String) : Stig :=
  { file := str (i ++ ".xml"), title := str ("linux alpha " ++ i),
    technology := str ("tech" ++ i) }

def stigs3 : List Stig := [mkStig "1", mkStig "2", mkStig "3"]

def stigs7 : List Stig :=
  [mkStig "1", mkStig "2", mkStig "3", mkStig "4", mkStig "5", mkStig "6", mkStig "7"]

/-- A one-control catalog for AU-3. -/
def catAU3 : List (Str × Ctrl) :=
  [(str "AU-3",
    { title := str "Content of Audit Records",
      description := str "Ensure that audit records contain information. More text here.",
      parameters := [] })]

/-- A concrete loop context for the per-control processing. -/
def ctx0 : GenCtx :=
  { wrap := wrap0, termWidth := 120, control_details := catAU3,
    assessment_procedures := [], retrieved_docs := [],
    all_stig_recommendations := [], selected_techs := [],
    is_assessment := false, is_implement := false, generate_checklist := false }

/-!
## Theorems

General-purpose lemmas first, then one theorem per claim (with witnesses
and counterexamples where required).
-/

theorem strIn_iff {p t : Str} : strIn p t = true ↔ p <:+: t := by
  induction t with
  | nil =>
    simp [strIn, List.isEmpty_iff]
  | cons c cs ih =>
    simp [strIn, Bool.or_eq_true, List.isPrefixOf_iff_prefix, ih, List.infix_cons_iff]

theorem pyJoin_isInfixOf {sep l : Str} {lines : List Str} (h : l ∈ lines) :
    l <:+: pyJoin sep lines := by
  induction lines with
  | nil => cases h
  | cons x ls ih =>
    cases ls with
    | nil =>
      rcases List.mem_cons.mp h with rfl | h2
      · exact List.infix_refl _
      · cases h2
    | cons y ls2 =>
      rcases List.mem_cons.mp h with rfl | h2
      · exact ⟨[], sep ++ pyJoin sep (y :: ls2), by simp [pyJoin, List.append_assoc]⟩
      · have hsuf : pyJoin sep (y :: ls2) <:+ pyJoin sep (x :: y :: ls2) :=
          ⟨x ++ sep, by simp [pyJoin, List.append_assoc]⟩
        exact (ih h2).trans hsuf.isInfix

theorem enumFrom_mem_bounds {α : Type} {k : Nat} {l : List α} {p : Nat × α}
    (h : p ∈ enumFrom k l) : k ≤ p.1 ∧ p.1 < k + l.length := by
  induction l generalizing k with
  | nil => cases h
  | cons x xs ih =>
    rcases List.mem_cons.mp h with rfl | h2
    · simp
    · have := ih h2
      simp only [List.length_cons]
      omega

/-- C8: the Unknown-Query Tracker log never stores two exactly-equal
entries: saving an already-present exact text leaves the log unchanged, and
every save preserves the duplicate-free invariant. -/
theorem save_unknown_query_dedup (l : List Str) (q : Str) (h : l.Nodup) :
    (save_unknown_query q l).Nodup ∧ (q ∈ l → save_unknown_query q l = l) := by
  constructor
  · unfold save_unknown_query
    by_cases hq : q ∈ l
    · rwa [if_pos hq]
    · rw [if_neg hq]
      exact List.nodup_append.mpr ⟨h, List.nodup_singleton q,
        fun a ha hb => by simp at hb; subst hb; exact hq ha⟩
  · intro hq
    unfold save_unknown_query
    rw [if_pos hq]

theorem save_unknown_query_dedup_witness :
    ([str "alpha"].Nodup) ∧
    ((save_unknown_query (str "alpha") [str "alpha"]).Nodup ∧
      (str "alpha" ∈ [str "alpha"] → save_unknown_query (str "alpha") [str "alpha"] = [str "alpha"])) :=
  ⟨by decide, save_unknown_query_dedup [str "alpha"] (str "alpha") (by decide)⟩

/-- C9: the Actionable-Step Extractor returns zero steps on the empty
description, while a non-empty description with no qualifying sentence gets
the one-step first-sentence fallback. -/
theorem extract_actionable_steps_empty :
    extract_actionable_steps (str "") = .ok [] ∧
    extract_actionable_steps (str "The policy exists here.") =
      .ok [str "The policy exists here."] := by
  exact ⟨rfl, by decide⟩

/-- C5 counterexample: the sentence "Verify compliance." is non-empty, its
first word qualifies, yet it is not emitted, because the source also
requires at least 3 whitespace-separated words. -/
theorem extract_actionable_steps_short_counterexample :
    splitSentences (str "Verify compliance. Ensure the policy is enforced.") =
      [str "Verify compliance.", str "Ensure the policy is enforced."] ∧
    rstripSet (pyLower (str "Verify")) (str ".,;") ∈ actionVerbs ∧
    extract_actionable_steps (str "Verify compliance. Ensure the policy is enforced.") =
      .ok [str "Ensure the policy is enforced."] ∧
    str "Verify compliance." ∉ [str "Ensure the policy is enforced."] := by
  refine ⟨by decide, by decide, by decide, by decide⟩

/-- C5 (amended): every sentence with at least 3 whitespace-separated words
whose first word, lower-cased with trailing punctuation stripped, is in the
13-verb set is emitted as a step, subject only to the 10-step cap. -/
theorem extract_actionable_steps_emits_qualifying (d s w : Str) (ws : List Str)
    (hmem : s ∈ splitSentences d)
    (hw : splitWS (pyStrip s) = w :: ws)
    (hlen : 3 ≤ (splitWS (pyStrip s)).length)
    (hverb : rstripSet (pyLower w) (str ".,;") ∈ actionVerbs) :
    ∃ steps, extract_actionable_steps d = .ok steps ∧
      (cleanStep (pyStrip s) ∈ steps ∨ steps.length = 10) := by
  have hstrip : pyStrip s ≠ [] := by
    intro h
    rw [h] at hw
    simp [splitWS, splitWSAux] at hw
  have hqual : qualStep s = some (cleanStep (pyStrip s)) := by
    unfold qualStep
    rw [if_neg hstrip, if_neg (by omega), hw]
    simp [hverb]
  have hd : d ≠ [] := by
    intro h
    subst h
    have : s = [] := by
      have : splitSentences [] = [[]] := rfl
      rw [this] at hmem
      simpa using hmem
    exact hstrip (by rw [this]; rfl)
  have hmemq : cleanStep (pyStrip s) ∈ (splitSentences d).filterMap qualStep :=
    List.mem_filterMap.mpr ⟨s, hmem, hqual⟩
  have hne : (splitSentences d).filterMap qualStep ≠ [] :=
    List.ne_nil_of_mem hmemq
  refine ⟨((splitSentences d).filterMap qualStep).take 10, ?_, ?_⟩
  · unfold extract_actionable_steps
    rw [if_neg hd, if_neg (by simp [hne])]
  · by_cases hl : ((splitSentences d).filterMap qualStep).length ≤ 10
    · left
      rw [List.take_of_length_le hl]
      exact hmemq
    · right
      simp [List.length_take]
      omega

theorem extract_actionable_steps_emits_qualifying_witness :
    (str "Ensure the policy is enforced." ∈
      splitSentences (str "Ensure the policy is enforced.")) ∧
    (∃ steps, extract_actionable_steps (str "Ensure the policy is enforced.") = .ok steps ∧
      (cleanStep (pyStrip (str "Ensure the policy is enforced.")) ∈ steps ∨ steps.length = 10)) :=
  ⟨by decide, extract_actionable_steps_emits_qualifying
    (str "Ensure the policy is enforced.") (str "Ensure the policy is enforced.")
    (str "Ensure") [str "the", str "policy", str "is", str "enforced."]
    (by decide) (by decide) (by decide) (by decide)⟩

/-- C1 (code bug): a query whose detected tags filter the rule sets to
exactly 3 candidates makes `generate_response` raise UnboundLocalError on
`selected_techs` instead of auto-selecting all 3 and completing: the 2-3
candidate branch appends to that local before any assignment to it. -/
theorem generate_response_three_candidates_unbound :
    (filterStigs stigs3 (detectTechKeywords splitWS
      (pyLower (pyStrip (stripTechSuffix (str "assess ac-7 for linux")))))).length = 3 ∧
    generate_response splitWS 120 wrap0 (str "assess ac-7 for linux")
      [] [] [] [] stigs3 [] [] false = .error (.unboundLocal "selected_techs") :=
  ⟨by decide, by decide⟩

/-- C2 (code bug): with Assessment intent, AU-3 present in the catalog and
no canonical assessment procedure, `generate_response` raises NameError at
the `extract_actionable_steps` call, because src/response_generator.py
never imports that name; no steps (and no parameter-confirmation step) are
emitted. -/
theorem generate_response_assessment_nameerror :
    List.lookup (str "AU-3") catAU3 ≠ none ∧
    generate_response splitWS 120 wrap0 (str "how do i assess au-3?")
      [] catAU3 [] [] [] [] [] false = .error (.nameError "extract_actionable_steps") :=
  ⟨by decide, by decide⟩

/-- C7: a resolved control id absent from the catalog produces exactly the
two status lines (header and "Not found in NIST 800-53 Rev 5 catalog."),
with no assessment, implementation, or technology-guidance section for that
id, and the loop continues with the remaining control ids. -/
theorem processControls_absent (ctx : GenCtx) (control_id : Str) (rest : List Str)
    (h : List.lookup control_id ctx.control_details = none) :
    processControls ctx (control_id :: rest) =
      (processControls ctx rest).map (fun tail =>
        (foreYellow ++ str "1. " ++ control_id ++ styleReset) ::
        (str "   - Status: Not found in NIST 800-53 Rev 5 catalog.") :: tail) := by
  rw [processControls, h]
  cases processControls ctx rest <;> rfl

theorem processControls_absent_witness :
    List.lookup (str "XX-1") ctx0.control_details = none ∧
    processControls ctx0 [str "XX-1"] =
      (processControls ctx0 []).map (fun tail =>
        (foreYellow ++ str "1. " ++ str "XX-1" ++ styleReset) ::
        (str "   - Status: Not found in NIST 800-53 Rev 5 catalog.") :: tail) :=
  ⟨by decide, processControls_absent ctx0 (str "XX-1") [] (by decide)⟩

/-- C10 counterexample: for a query with a CCI id absent from the mapping
the response does NOT contain the literal text
"Not mapped to NIST 800-53 Rev 5" claimed by the spec; it contains the
normalized (uppercased) text instead. -/
theorem generate_response_cci_unmapped_counterexample :
    (generate_response splitWS 120 wrap0 (str "what is cci-000999?")
        [] [] [] [] [] [] [] false).toOption.map
      (fun s => (strIn (str "Not mapped to NIST 800-53 Rev 5") s,
                 strIn (str "NOT MAPPED TO NIST 800-53 REV 5") s)) = some (false, true) := by
  decide

/-- C10 (amended): a CCI id absent from the mapping yields a normal
response (no error) of exactly two lines mapping the id to the normalized,
uppercased fallback text (`normalize_control_id` of
"Not mapped to NIST 800-53 Rev 5"), with no catalog title or description
line for that id. -/
theorem generate_response_cci_unmapped (nlpTok : Str → List Str) (termWidth : Nat)
    (wrap : Str → Nat → Str → Str) (query : Str) (retrieved_docs : List Str)
    (control_details : List (Str × Ctrl)) (high_baseline_controls : List Str)
    (all_stig_recommendations : List (Str × List (Str × List StigRec)))
    (available_stigs : List Stig) (assessment_procedures : List (Str × List Str))
    (cci_to_nist : List (Str × Str)) (generate_checklist : Bool)
    (cids : List Str) (cci_low : Str)
    (hres : resolveControlIds retrieved_docs (originalLower query) = .ok cids)
    (hidx : findTechIndex (pyLower query) = none)
    (hcci : cciSearch (originalLower query) = some cci_low)
    (hlk : List.lookup (pyUpper cci_low) cci_to_nist = none)
    (hcat : List.lookup (normalize_control_id (str "Not mapped to NIST 800-53 Rev 5"))
      control_details = none) :
    generate_response nlpTok termWidth wrap query retrieved_docs control_details
      high_baseline_controls all_stig_recommendations available_stigs
      assessment_procedures cci_to_nist generate_checklist =
      .ok (joinLines [foreCyan ++ str "CCI Lookup:" ++ styleReset,
        str "- " ++ pyUpper cci_low ++ str " maps to NIST " ++
          normalize_control_id (str "Not mapped to NIST 800-53 Rev 5")]) := by
  unfold generate_response
  simp only [hres, hidx, hcci, hlk, hcat, Option.getD_none]
  simp

theorem generate_response_cci_unmapped_witness :
    cciSearch (originalLower (str "what is cci-000999?")) = some (str "cci-000999") ∧
    generate_response splitWS 120 wrap0 (str "what is cci-000999?")
        [] [] [] [] [] [] [] false =
      .ok (joinLines [foreCyan ++ str "CCI Lookup:" ++ styleReset,
        str "- " ++ pyUpper (str "cci-000999") ++ str " maps to NIST " ++
          normalize_control_id (str "Not mapped to NIST 800-53 Rev 5")]) :=
  ⟨by decide, generate_response_cci_unmapped splitWS 120 wrap0 (str "what is cci-000999?")
    [] [] [] [] [] [] [] false [str "CI-000999"] (str "cci-000999")
    (by decide) (by decide) (by decide) (by decide) (by decide)⟩

/-- C3 counterexample: with 7 filtered candidates the clarification round
displays 5 candidates (no "tech6" anywhere in the prompt), yet selecting
index 0 on the follow-up turn yields a response whose selected-technology
list contains tech6: a technology that was never displayed is selected. -/
theorem clarification_index_zero_counterexample :
    (generate_response splitWS 120 wrap0 (str "assess ac-7 for linux")
        [] [] [] [] stigs7 [] [] false).toOption.map
      (fun s => (strIn (str "CLARIFICATION_NEEDED") s, strIn (str "tech6") s)) =
        some (true, false) ∧
    (generate_response splitWS 120 wrap0
        (str "assess ac-7 for linux with technology index 0")
        [] [] [] [] stigs7 [] [] false).toOption.map
      (fun s => strIn (str "tech6") s) = some true :=
  ⟨by decide, by decide⟩

/-- C3 (amended): selecting index 0 after a clarification round selects the
technologies of ALL candidates of the filtered set re-derived from the
original query on the follow-up turn.  This set extends beyond the at most
5 displayed candidates whenever more than 5 exist, and equals every loaded
rule set when no technology keyword is detected. -/
theorem generate_response_index_zero (nlpTok : Str → List Str) (termWidth : Nat)
    (wrap : Str → Nat → Str → Str) (query : Str) (retrieved_docs : List Str)
    (control_details : List (Str × Ctrl)) (high_baseline_controls : List Str)
    (all_stig_recommendations : List (Str × List (Str × List StigRec)))
    (available_stigs : List Stig) (assessment_procedures : List (Str × List Str))
    (cci_to_nist : List (Str × Str)) (generate_checklist : Bool) (cids : List Str)
    (hres : resolveControlIds retrieved_docs (originalLower query) = .ok cids)
    (hidx : findTechIndex (pyLower query) = some 0) :
    generate_response nlpTok termWidth wrap query retrieved_docs control_details
      high_baseline_controls all_stig_recommendations available_stigs
      assessment_procedures cci_to_nist generate_checklist =
      buildFinal { mkCtx wrap termWidth control_details assessment_procedures
          retrieved_docs all_stig_recommendations generate_checklist (originalLower query) with
        selected_techs := (filterStigs available_stigs
          (detectTechKeywords nlpTok (originalLower query))).map Stig.technology }
        [] (actionWord (originalLower query)) cids := by
  unfold generate_response
  simp only [hres, hidx]
  rfl

theorem generate_response_index_zero_witness :
    findTechIndex (pyLower (str "assess ac-7 for linux with technology index 0")) = some 0 ∧
    generate_response splitWS 120 wrap0
        (str "assess ac-7 for linux with technology index 0")
        [] [] [] [] stigs7 [] [] false =
      buildFinal { mkCtx wrap0 120 [] [] [] [] false
          (originalLower (str "assess ac-7 for linux with technology index 0")) with
        selected_techs := (filterStigs stigs7 (detectTechKeywords splitWS
          (originalLower (str "assess ac-7 for linux with technology index 0")))).map
            Stig.technology }
        [] (actionWord (originalLower (str "assess ac-7 for linux with technology index 0")))
        [str "AC-7"] :=
  ⟨by decide, generate_response_index_zero splitWS 120 wrap0
    (str "assess ac-7 for linux with technology index 0")
    [] [] [] [] stigs7 [] [] false [str "AC-7"] (by decide) (by decide)⟩

/-- Any line of the clarification prompt is contained in the prompt. -/
theorem strIn_clarPrompt_of_line {sub : Str} {fs : List Stig} (line : Str)
    (hline : line ∈ clarLines fs) (hsub : sub <:+: line) :
    strIn sub (clarPrompt fs) = true := by
  apply strIn_iff.mpr
  exact (hsub.trans (pyJoin_isInfixOf hline)).trans
    (List.prefix_append (joinLines (clarLines fs)) (str "\nCLARIFICATION_NEEDED")).isInfix

/-- C4: at least 4 candidates after filtering make `generate_response`
enter AwaitingSelection: the returned prompt carries the clarification
marker, reports the true total candidate count, and presents
`min 5 n` candidates with 1-based indices. -/
theorem generate_response_awaiting_selection (nlpTok : Str → List Str) (termWidth : Nat)
    (wrap : Str → Nat → Str → Str) (query : Str) (retrieved_docs : List Str)
    (control_details : List (Str × Ctrl)) (high_baseline_controls : List Str)
    (all_stig_recommendations : List (Str × List (Str × List StigRec)))
    (available_stigs : List Stig) (assessment_procedures : List (Str × List Str))
    (cci_to_nist : List (Str × Str)) (generate_checklist : Bool) (cids : List Str)
    (hres : resolveControlIds retrieved_docs (originalLower query) = .ok cids)
    (hidx : findTechIndex (pyLower query) = none)
    (hcci : cciSearch (originalLower query) = none)
    (hrev : reverseSearchGo (originalLower query) = none)
    (h4 : 4 ≤ (filterStigs available_stigs
      (detectTechKeywords nlpTok (originalLower query))).length) :
    generate_response nlpTok termWidth wrap query retrieved_docs control_details
      high_baseline_controls all_stig_recommendations available_stigs
      assessment_procedures cci_to_nist generate_checklist =
      .ok (clarPrompt (filterStigs available_stigs
        (detectTechKeywords nlpTok (originalLower query)))) ∧
    ((filterStigs available_stigs
      (detectTechKeywords nlpTok (originalLower query))).take 5).length =
      min 5 (filterStigs available_stigs
        (detectTechKeywords nlpTok (originalLower query))).length ∧
    strIn (str "CLARIFICATION_NEEDED") (clarPrompt (filterStigs available_stigs
      (detectTechKeywords nlpTok (originalLower query)))) = true ∧
    strIn (str "Multiple STIGs available (" ++
        natStr (filterStigs available_stigs
          (detectTechKeywords nlpTok (originalLower query))).length ++ str " total)")
      (clarPrompt (filterStigs available_stigs
        (detectTechKeywords nlpTok (originalLower query)))) = true ∧
    ∀ p ∈ enumFrom 1 ((filterStigs available_stigs
        (detectTechKeywords nlpTok (originalLower query))).take 5),
      1 ≤ p.1 ∧ p.1 ≤ 5 ∧
      strIn (natStr p.1 ++ str ". " ++ p.2.technology)
        (clarPrompt (filterStigs available_stigs
          (detectTechKeywords nlpTok (originalLower query)))) = true := by
  refine ⟨?_, ?_, ?_, ?_, ?_⟩
  · unfold generate_response
    simp only [hres, hidx, hcci, hrev]
    split
    · rename_i heq
      rw [heq] at h4
      simp at h4
    · rename_i s heq
      rw [heq] at h4
      simp at h4
    · rename_i a b l2 heq
      have hlen : ¬ ((filterStigs available_stigs
          (detectTechKeywords nlpTok (originalLower query))).length ≤ 3) := by
        rw [heq] at h4 ⊢
        simp only [List.length_cons] at h4 ⊢
        omega
      rw [if_neg hlen]
  · simp [List.length_take]
  · apply strIn_iff.mpr
    refine ⟨joinLines (clarLines (filterStigs available_stigs
      (detectTechKeywords nlpTok (originalLower query)))) ++ [10], [], ?_⟩
    have hsplit : str "\nCLARIFICATION_NEEDED" = 10 :: str "CLARIFICATION_NEEDED" := by decide
    simp [clarPrompt, hsplit, List.append_assoc]
  · apply strIn_clarPrompt_of_line _ (List.mem_cons_self _ _)
    refine ⟨foreCyan, str ". Showing top 5:" ++ styleReset, ?_⟩
    have hsplit : str " total). Showing top 5:" =
      str " total)" ++ str ". Showing top 5:" := by decide
    simp [clarLines, hsplit, List.append_assoc]
  · intro p hp
    have hb := enumFrom_mem_bounds hp
    have hlen5 : ((filterStigs available_stigs
        (detectTechKeywords nlpTok (originalLower query))).take 5).length ≤ 5 := by
      simp [List.length_take]
    refine ⟨hb.1, by omega, ?_⟩
    apply strIn_clarPrompt_of_line (natStr p.1 ++ str ". " ++ p.2.technology ++
      str " - " ++ p.2.title.take 70 ++ str "...")
    · simp only [clarLines]
      exact List.mem_cons_of_mem _ (List.mem_append_left _
        (List.mem_map_of_mem _ hp))
    · refine ⟨[], str " - " ++ p.2.title.take 70 ++ str "...", ?_⟩
      simp [List.append_assoc]

theorem generate_response_awaiting_selection_witness :
    4 ≤ (filterStigs stigs7 (detectTechKeywords splitWS
      (originalLower (str "assess ac-7 for linux")))).length ∧
    generate_response splitWS 120 wrap0 (str "assess ac-7 for linux")
      [] [] [] [] stigs7 [] [] false =
      .ok (clarPrompt (filterStigs stigs7 (detectTechKeywords splitWS
        (originalLower (str "assess ac-7 for linux"))))) :=
  ⟨by decide, (generate_response_awaiting_selection splitWS 120 wrap0
    (str "assess ac-7 for linux") [] [] [] [] stigs7 [] [] false [str "AC-7"]
    (by decide) (by decide) (by decide) (by decide) (by decide)).1⟩

/-! Lemmas for the idempotence of `normalize_control_id` (C6). -/

theorem pyUpperChar_idem (c : Nat) : pyUpperChar (pyUpperChar c) = pyUpperChar c := by
  unfold pyUpperChar
  split_ifs <;> omega

theorem pyUpperChar_not_lower (c : Nat) : isLowerN (pyUpperChar c) = false := by
  unfold isLowerN pyUpperChar
  split_ifs <;>
    (simp only [Bool.and_eq_false_iff, decide_eq_false_iff_not]; omega)

theorem pyIsSpace_upperChar (c : Nat) : pyIsSpace (pyUpperChar c) = pyIsSpace c := by
  by_cases h : 97 ≤ c ∧ c ≤ 122
  · have e : pyUpperChar c = c - 32 := by simp [pyUpperChar, h]
    rw [e]
    have l1 : pyIsSpace (c - 32) = false := by
      simp only [pyIsSpace, Bool.or_eq_false_iff, decide_eq_false_iff_not]
      omega
    have l2 : pyIsSpace c = false := by
      simp only [pyIsSpace, Bool.or_eq_false_iff, decide_eq_false_iff_not]
      omega
    rw [l1, l2]
  · simp [pyUpperChar, h]

theorem pyUpperChar_digit {c : Nat} (h : isDigitN c = true) : pyUpperChar c = c := by
  unfold isDigitN at h
  unfold pyUpperChar
  simp at h
  split_ifs with h2
  · omega
  · rfl

theorem pyUpper_idem (s : Str) : pyUpper (pyUpper s) = pyUpper s := by
  unfold pyUpper
  rw [List.map_map]
  exact List.map_congr_left (fun a _ => pyUpperChar_idem a)

theorem getLast?_cons_ne {α : Type} {y : α} {X : List α} (h : X ≠ []) :
    (y :: X).getLast? = X.getLast? := by
  cases X with
  | nil => exact absurd rfl h
  | cons z zs => exact List.getLast?_cons_cons

theorem getLast?_map {α β : Type} (f : α → β) (l : List α) :
    (l.map f).getLast? = l.getLast?.map f := by
  rw [← List.head?_reverse, ← List.map_reverse, List.head?_map, List.head?_reverse]

theorem collapse_true_eq (cs : Str) :
    collapseAux true cs = collapseAux false (cs.dropWhile pyIsSpace) := by
  induction cs with
  | nil => rfl
  | cons c cs ih =>
    by_cases h : pyIsSpace c
    · rw [List.dropWhile_cons_of_pos h]
      simpa [collapseAux, h] using ih
    · rw [List.dropWhile_cons_of_neg (by simp [h])]
      simp [collapseAux, h]

theorem collapse_cons_nonspace {c : Nat} {cs : Str} (h : pyIsSpace c = false) :
    collapseAux false (c :: cs) = c :: collapseAux false cs := by
  simp [collapseAux, h]

theorem collapse_idem : ∀ (m : Str), collapseAux false (collapseAux false m) = collapseAux false m
  | [] => rfl
  | c :: cs => by
    by_cases h : pyIsSpace c
    · have e1 : collapseAux false (c :: cs) = 32 :: collapseAux true cs := by
        simp [collapseAux, h]
      rw [e1]
      have e2 : collapseAux false (32 :: collapseAux true cs) =
          32 :: collapseAux true (collapseAux true cs) := by
        simp [collapseAux, show pyIsSpace 32 = true from rfl]
      rw [e2, collapse_true_eq cs, collapse_true_eq]
      congr 1
      rcases hY : cs.dropWhile pyIsSpace with _ | ⟨d, ds⟩
      · simp [collapseAux]
      · have hd : pyIsSpace d = false := by
          have hw := List.head?_dropWhile_not pyIsSpace cs
          rw [hY] at hw
          simpa using hw
        rw [collapse_cons_nonspace hd, List.dropWhile_cons_of_neg (by simp [hd]),
          ← collapse_cons_nonspace hd]
        exact collapse_idem (d :: ds)
    · have e1 : collapseAux false (c :: cs) = c :: collapseAux false cs := by
        simp [collapseAux, h]
      rw [e1]
      have e2 : collapseAux false (c :: collapseAux false cs) =
          c :: collapseAux false (collapseAux false cs) := by
        simp [collapseAux, h]
      rw [e2, collapse_idem cs]
termination_by m => m.length
decreasing_by
  · have hle := (@List.dropWhile_suffix Nat cs pyIsSpace).sublist.length_le
    rw [hY] at hle
    simp at hle ⊢
    omega
  · simp

theorem collapse_getLast (flag : Bool) (m : Str) : ∀ (c : Nat), m.getLast? = some c →
    pyIsSpace c = false → (collapseAux flag m).getLast? = some c := by
  induction m generalizing flag with
  | nil => intro c h _; simp at h
  | cons a m' ih =>
    intro c hlast hc
    cases m' with
    | nil =>
      simp at hlast
      subst hlast
      cases flag <;> simp [collapseAux, hc]
    | cons b m'' =>
      rw [List.getLast?_cons_cons] at hlast
      by_cases ha : pyIsSpace a
      · cases flag
        · have e : collapseAux false (a :: b :: m'') = 32 :: collapseAux true (b :: m'') := by
            simp [collapseAux, ha]
          rw [e]
          have hx := ih true c hlast hc
          have hne : collapseAux true (b :: m'') ≠ [] := by
            intro hz
            rw [hz] at hx
            cases hx
          rwa [getLast?_cons_ne hne]
        · have e : collapseAux true (a :: b :: m'') = collapseAux true (b :: m'') := by
            simp [collapseAux, ha]
          rw [e]
          exact ih true c hlast hc
      · have e : collapseAux flag (a :: b :: m'') = a :: collapseAux false (b :: m'') := by
          cases flag <;> simp [collapseAux, ha]
        rw [e]
        have hx := ih false c hlast hc
        have hne : collapseAux false (b :: m'') ≠ [] := by
          intro hz
          rw [hz] at hx
          cases hx
        rwa [getLast?_cons_ne hne]

theorem collapse_map_upper (flag : Bool) (m : Str) :
    collapseAux flag (pyUpper m) = pyUpper (collapseAux flag m) := by
  induction m generalizing flag with
  | nil => simp [collapseAux, pyUpper]
  | cons c cs ih =>
    by_cases h : pyIsSpace c
    · have h2 : pyIsSpace (pyUpperChar c) = true := by
        rw [pyIsSpace_upperChar]
        exact h
      have ihX := ih true
      simp only [pyUpper] at ihX
      cases flag <;>
        simp [collapseAux, h2, h, pyUpper, ihX, show pyUpperChar 32 = 32 from rfl]
    · have h2 : pyIsSpace (pyUpperChar c) = false := by
        rw [pyIsSpace_upperChar]
        exact (by simpa using h)
      have ihX := ih false
      simp only [pyUpper] at ihX
      cases flag <;> simp [collapseAux, h2, h, pyUpper, ihX]

theorem strip_head_not_space (l : Str) : ∀ c, (pyStrip l).head? = some c →
    pyIsSpace c = false := by
  intro c hc
  have h1 : (l.dropWhile pyIsSpace).reverse.dropWhile pyIsSpace <:+
      (l.dropWhile pyIsSpace).reverse := List.dropWhile_suffix pyIsSpace
  have h2 : ((l.dropWhile pyIsSpace).reverse.dropWhile pyIsSpace).reverse <+:
      l.dropWhile pyIsSpace := by
    have h2x := List.reverse_prefix.mpr h1
    rwa [List.reverse_reverse] at h2x
  unfold pyStrip at hc
  rcases hs : ((l.dropWhile pyIsSpace).reverse.dropWhile pyIsSpace).reverse with _ | ⟨a, t⟩
  · rw [hs] at hc
    cases hc
  · rw [hs] at hc h2
    simp at hc
    subst hc
    obtain ⟨tail, htail⟩ := h2
    have hw := List.head?_dropWhile_not pyIsSpace l
    rw [← htail] at hw
    simpa using hw

theorem strip_getLast_not_space (l : Str) : ∀ c, (pyStrip l).getLast? = some c →
    pyIsSpace c = false := by
  intro c hc
  unfold pyStrip at hc
  rw [List.getLast?_reverse] at hc
  have hw := List.head?_dropWhile_not pyIsSpace (l.dropWhile pyIsSpace).reverse
  rw [hc] at hw
  simpa using hw

theorem strip_of_clean (r : Str) (hh : ∀ c, r.head? = some c → pyIsSpace c = false)
    (hl : ∀ c, r.getLast? = some c → pyIsSpace c = false) : pyStrip r = r := by
  unfold pyStrip
  have e1 : r.dropWhile pyIsSpace = r := by
    cases r with
    | nil => rfl
    | cons a t => exact List.dropWhile_cons_of_neg (by simp [hh a rfl])
  rw [e1]
  have e2 : r.reverse.dropWhile pyIsSpace = r.reverse := by
    rcases hr : r.reverse with _ | ⟨a, t⟩
    · rfl
    · refine List.dropWhile_cons_of_neg ?_
      have : r.getLast? = some a := by
        rw [← List.head?_reverse, hr]
        rfl
      simp [hl a this]
  rw [e2, List.reverse_reverse]

theorem parenSub_id : ∀ (l : Str), (∀ c ∈ l, isLowerN c = false) →
    parenSubGo .scan l = l ∧
    (∀ ds : Str, (∀ c ∈ ds, isDigitN c = true) →
      parenSubGo (.grp ds) l = 40 :: ds.reverse ++ l) := by
  intro l
  induction l with
  | nil =>
    intro _
    exact ⟨rfl, fun ds _ => by simp [parenSubGo]⟩
  | cons c cs ih =>
    intro hlow
    have hlowc : isLowerN c = false := hlow c (List.mem_cons_self c cs)
    obtain ⟨ihs, ihg⟩ := ih (fun x hx => hlow x (List.mem_cons_of_mem c hx))
    constructor
    · by_cases h40 : c = 40
      · subst h40
        have e : parenSubGo .scan (40 :: cs) = parenSubGo (.grp []) cs := by
          simp [parenSubGo]
        rw [e, ihg [] (by simp)]
        rfl
      · simp [parenSubGo, h40, ihs]
    · intro ds hds
      by_cases hd : isDigitN c
      · have e : parenSubGo (.grp ds) (c :: cs) = parenSubGo (.grp (c :: ds)) cs := by
          simp [parenSubGo, hd]
        rw [e, ihg (c :: ds) ?_]
        · simp
        · intro x hx
          rcases List.mem_cons.mp hx with rfl | hx
          · exact hd
          · exact hds x hx
      · by_cases h41 : c = 41
        · subst h41
          cases ds with
          | nil => simp [parenSubGo, hd, ihs]
          | cons d ds' =>
            have hmap2 : List.map pyUpperChar ds' = ds' := by
              conv_rhs => rw [← List.map_id ds']
              exact List.map_congr_left
                (fun a ha => pyUpperChar_digit (hds a (List.mem_cons_of_mem d ha)))
            have hd2 : pyUpperChar d = d :=
              pyUpperChar_digit (hds d (List.mem_cons_self d ds'))
            simp [parenSubGo, hd, hmap2, hd2, ihs]
        · by_cases h40 : c = 40
          · subst h40
            have e : parenSubGo (.grp ds) (40 :: cs) =
                40 :: ds.reverse ++ parenSubGo (.grp []) cs := by
              simp [parenSubGo, hd, hlowc]
            rw [e, ihg [] (by simp)]
            simp
          · simp [parenSubGo, hd, h41, h40, hlowc, ihs]

theorem pyUpper_no_lower (s : Str) : ∀ c ∈ pyUpper s, isLowerN c = false := by
  intro c hc
  obtain ⟨a, _, rfl⟩ := List.mem_map.mp hc
  exact pyUpperChar_not_lower a

theorem normalize_eq {x : Str} (hx : x ≠ []) :
    normalize_control_id x = pyUpper (collapseAux false (pyStrip x)) := by
  unfold normalize_control_id
  rw [if_neg hx]
  exact (parenSub_id _ (pyUpper_no_lower _)).1

/-- C6: control-id normalization is idempotent: for every control-id
string, normalizing twice equals normalizing once. -/
theorem normalize_control_id_idempotent (x : Str) :
    normalize_control_id (normalize_control_id x) = normalize_control_id x := by
  by_cases hx : x = []
  · subst hx
    rfl
  · rw [normalize_eq hx]
    by_cases hr : pyUpper (collapseAux false (pyStrip x)) = []
    · rw [hr]
      rfl
    · rw [normalize_eq hr]
      have hstripfacts : ∃ a t, pyStrip x = a :: t := by
        rcases hs : pyStrip x with _ | ⟨a, t⟩
        · exfalso
          apply hr
          rw [hs]
          rfl
        · exact ⟨a, t, rfl⟩
      obtain ⟨a, t, hs⟩ := hstripfacts
      have ha : pyIsSpace a = false := strip_head_not_space x a (by rw [hs]; rfl)
      have hlastex : ∃ b, (pyStrip x).getLast? = some b := by
        rw [hs]
        rcases hb : (a :: t).getLast? with _ | b
        · exfalso
          rw [List.getLast?_eq_none_iff] at hb
          cases hb
        · exact ⟨b, rfl⟩
      obtain ⟨b, hb⟩ := hlastex
      have hbs : pyIsSpace b = false := strip_getLast_not_space x b hb
      have hh : ∀ c, (pyUpper (collapseAux false (pyStrip x))).head? = some c →
          pyIsSpace c = false := by
        intro c hc
        rw [pyUpper, List.head?_map, hs, collapse_cons_nonspace ha] at hc
        simp at hc
        rw [← hc, pyIsSpace_upperChar]
        exact ha
      have hl : ∀ c, (pyUpper (collapseAux false (pyStrip x))).getLast? = some c →
          pyIsSpace c = false := by
        intro c hc
        rw [pyUpper, getLast?_map] at hc
        rw [collapse_getLast false (pyStrip x) b hb hbs] at hc
        simp at hc
        rw [← hc, pyIsSpace_upperChar]
        exact hbs
      rw [strip_of_clean _ hh hl]
      have hcol : collapseAux false (pyUpper (collapseAux false (pyStrip x))) =
          pyUpper (collapseAux false (pyStrip x)) := by
        rw [collapse_map_upper, collapse_idem]
      rw [hcol]
      exact pyUpper_idem _

end NistRag
